import Mathlib

/-!
Verification of the bridgy-fed activity router core against its specification.

The Python sources under scrutiny are `common.py`, `ids.py`, `protocol.py` and
`redirect.py`.  Each definition below is a shallow embedding of the
corresponding Python function; external collaborators (the `granary`/`webutil`
libraries, the datastore, the protocol plugins) appear as explicit environment
parameters so that the control flow of the embedded functions is exactly the
control flow of the source.
-/

namespace BridgyFed

/-- The concrete protocol plugins registered in this deployment, identified the
way the source identifies them (`LABEL`).  `fake` is the test-only protocol. -/
inductive Proto : Type
  | activitypub
  | atproto
  | web
  | fake
  | nostr
deriving DecidableEq, Repr

/-- `Protocol.LABEL`: lower-cased class name. -/
def Proto.LABEL : Proto → String
  | .activitypub => "activitypub"
  | .atproto => "atproto"
  | .web => "web"
  | .fake => "fake"
  | .nostr => "nostr"

/-- `Protocol.ABBREV`, as used in the per-protocol `brid.gy` subdomains. -/
def Proto.ABBREV : Proto → String
  | .activitypub => "ap"
  | .atproto => "bsky"
  | .web => "web"
  | .fake => "fa"
  | .nostr => "nostr"

theorem Proto.LABEL_injective : Function.Injective Proto.LABEL := by
  intro a b h
  cases a <;> cases b <;> simp_all [Proto.LABEL]

/-- `common.SUPERDOMAIN`. -/
def SUPERDOMAIN : String := ".brid.gy"

/-- `common.PRIMARY_DOMAIN`. -/
def PRIMARY_DOMAIN : String := "fed.brid.gy"

/-- `common.OTHER_DOMAINS`. -/
def OTHER_DOMAINS : List String :=
  ["ap.brid.gy", "atp.brid.gy", "atproto.brid.gy", "bluesky.brid.gy",
   "bsky.brid.gy", "bridgy-federated.appspot.com",
   "bridgy-federated.uc.r.appspot.com", "fa.brid.gy", "nostr.brid.gy",
   "web.brid.gy"]

/-- `common.LOCAL_DOMAINS`. -/
def LOCAL_DOMAINS : List String := ["localhost", "localhost:8080", "my.dev.com:8080"]

/-- `common.DOMAINS = (PRIMARY_DOMAIN,) + OTHER_DOMAINS + LOCAL_DOMAINS`. -/
def DOMAINS : List String := PRIMARY_DOMAIN :: (OTHER_DOMAINS ++ LOCAL_DOMAINS)

/-- Modelled from the spec: `subdomain_wrap` is imported by `ids.py` and
`protocol.py` from `common.py` but its definition is missing from the source
tree.  Spec §4.2(d) gives the rule it implements: the default "subdomain wrap"
produces a URL on `https://<origin-abbrev>.<super-domain>` under the given
path. -/
def subdomain_wrap (p : Proto) (path : String) : String :=
  "https://" ++ p.ABBREV ++ SUPERDOMAIN ++ path

/-- Python `str.lstrip(c)`: drop every leading occurrence of `c`. -/
def pyLstrip (c : Char) (s : String) : String := ⟨s.data.dropWhile (· = c)⟩

/-- Python `str.replace(a, b)` for single characters. -/
def pyReplace (a b : Char) (s : String) : String :=
  ⟨s.data.map (fun ch => if ch = a then b else ch)⟩

/-- Python `str.split(c)` for a single-character separator. -/
def pySplit (c : Char) (s : String) : List String :=
  (s.data.splitOn c).map (fun l => ⟨l⟩)

/-- Result of an id/handle translation: a value, Python `None`, or a raised
`AssertionError`/`ValueError`. -/
inductive TransResult : Type
  | ok (id : String)
  | notFound
  | assertErr
deriving DecidableEq, Repr

/-- The datastore-dependent pieces that `ids.py` consults: the origin plugin's
ownership tests and the `copies` lookups used by the `atproto` branches. -/
structure IdsEnv : Type where
  /-- `from_proto.owns_id(id)`: `True`/`False`/`None`. -/
  ownsId : Proto → String → Option Bool
  /-- `from_proto.owns_handle(handle)`. -/
  ownsHandle : Proto → String → Option Bool
  /-- the observable result of `from_proto.get_by_id(id)` followed by
  `.atproto_did`: the stored user's ATProto DID, if any. -/
  atprotoDid : Proto → String → Option String
  /-- the observable result of `from_proto.get_for_copy(id)` followed by
  `.key.id()`: the local user owning this copy id, if any. -/
  forCopy : Proto → String → Option String

/-- `ids.translate_user_id`, embedded arm for arm from the source `match`. -/
def translate_user_id (env : IdsEnv) (id : String) (fromP toP : Proto) :
    TransResult :=
  if id = "" then .assertErr
  else if env.ownsId fromP id = some false then .assertErr
  else if fromP = toP then .ok id
  else if toP = .atproto then
    match env.atprotoDid fromP id with
    | some did => .ok did
    | none => .notFound
  else if fromP = .atproto then
    match env.forCopy fromP id with
    | some keyId => .ok keyId
    | none => .notFound
  else if toP = .activitypub then .ok (subdomain_wrap fromP ("/ap/" ++ id))
  else if fromP = .activitypub ∧ toP = .web then .ok id
  else if toP = .fake then .ok ("fake:" ++ id)
  else if fromP = .fake then .ok id
  else .assertErr

/-- `ids.translate_handle`, embedded arm for arm from the source `match`.
The `('activitypub', 'web')` arm is the source's literal
`return f'instance/@user'`: an f-string without placeholders, so the constant
string `"instance/@user"` (the tuple unpacking of `split('@')` raises unless
it yields exactly two parts). -/
def translate_handle (env : IdsEnv) (handle : String) (fromP toP : Proto) :
    TransResult :=
  if handle = "" then .assertErr
  else if env.ownsHandle fromP handle = some false then .assertErr
  else if fromP = toP then .ok handle
  else if toP = .activitypub then
    .ok ("@" ++ handle ++ "@" ++ fromP.ABBREV ++ SUPERDOMAIN)
  else if toP = .atproto ∨ toP = .nostr then
    .ok (pyReplace '@' '.' (pyLstrip '@' handle) ++ "." ++ fromP.ABBREV ++ SUPERDOMAIN)
  else if fromP = .activitypub ∧ toP = .web then
    match pySplit '@' (pyLstrip '@' handle) with
    | [_user, _instance] => .ok "instance/@user"
    | _ => .assertErr
  else if toP = .web then .ok handle
  else if toP = .fake then .ok ("fake:handle:" ++ handle)
  else .assertErr

/-- An environment in which no user or copy records exist and every ownership
test answers "unclear". -/
def idsEnvEmpty : IdsEnv :=
  { ownsId := fun _ _ => none
    ownsHandle := fun _ _ => none
    atprotoDid := fun _ _ => none
    forCopy := fun _ _ => none }

/-- C6 (counterexample). The claim predicts that for every non-copies pair of
distinct protocols the result is the subdomain-wrap URL
`https://<origin-abbrev>.<super-domain>/<dest-abbrev>/<id>`.  For the pair
(activitypub, web) — neither of which uses copies — the source's
`('activitypub', 'web')` arm returns the id unchanged instead, so on the id
`https://inst/user` the result differs from the claimed URL
`https://ap.brid.gy/web/https://inst/user`. -/
theorem C6_claim_false_on_activitypub_to_web :
    translate_user_id idsEnvEmpty "https://inst/user" .activitypub .web =
      .ok "https://inst/user"
    ∧ translate_user_id idsEnvEmpty "https://inst/user" .activitypub .web ≠
      .ok ("https://" ++ Proto.ABBREV .activitypub ++ SUPERDOMAIN ++ "/"
            ++ Proto.ABBREV .web ++ "/" ++ "https://inst/user") := by
  constructor
  · rfl
  · decide

/-- C6 (amended).  For ids the origin protocol accepts (`owns_id` not `False`)
and ordered pairs of distinct protocols where neither direction uses the
copies mechanism (neither side is `atproto`), `translate_user_id` returns the
subdomain-wrap URL `https://<origin-abbrev>.<super-domain>/<dest-abbrev>/<id>`
only when the destination is `activitypub`; for the pair (activitypub, web) it
returns the id unchanged. -/
theorem C6_subdomain_wrap_only_to_activitypub (env : IdsEnv) (id : String)
    (hid : id ≠ "") :
    (∀ fromP : Proto, fromP ≠ .activitypub → fromP ≠ .atproto →
      env.ownsId fromP id ≠ some false →
      translate_user_id env id fromP .activitypub =
        .ok ("https://" ++ fromP.ABBREV ++ SUPERDOMAIN ++ "/"
              ++ Proto.ABBREV .activitypub ++ "/" ++ id))
    ∧ (env.ownsId .activitypub id ≠ some false →
      translate_user_id env id .activitypub .web = .ok id) := by
  constructor
  · intro fromP hfa hfat howns
    cases fromP <;>
      simp_all [translate_user_id, subdomain_wrap, SUPERDOMAIN, Proto.ABBREV,
                ← String.append_assoc]
  · intro howns
    simp_all [translate_user_id]

/-- C6 (witness for the amended theorem): concrete instance at
`fromP = web`, `id = "user.com"`. -/
theorem C6_subdomain_wrap_only_to_activitypub_witness :
    translate_user_id idsEnvEmpty "user.com" .web .activitypub =
      .ok ("https://" ++ Proto.ABBREV .web ++ SUPERDOMAIN ++ "/"
            ++ Proto.ABBREV .activitypub ++ "/" ++ "user.com")
    ∧ translate_user_id idsEnvEmpty "user.com" .activitypub .web =
      .ok "user.com" :=
  ⟨(C6_subdomain_wrap_only_to_activitypub idsEnvEmpty "user.com" (by decide)).1
      .web (by decide) (by decide) (by simp [idsEnvEmpty]),
   (C6_subdomain_wrap_only_to_activitypub idsEnvEmpty "user.com" (by decide)).2
      (by simp [idsEnvEmpty])⟩

/-- C7 (code bug evaluation).  The spec and the repository's own test suite
(`tests/test_ids.py`) say translating the ActivityPub handle
`@user@instance` to `web` yields `https://instance/@user`; the source's
`('activitypub', 'web')` arm is `return f'instance/@user'` — an f-string with
no placeholders, marked TODO — so the code returns the constant string
`instance/@user` for every handle. -/
theorem C7_ap_to_web_handle_is_constant :
    translate_handle idsEnvEmpty "@user@instance" .activitypub .web =
      .ok "instance/@user"
    ∧ translate_handle idsEnvEmpty "@alice@inst.example" .activitypub .web =
      .ok "instance/@user"
    ∧ TransResult.ok "instance/@user" ≠ .ok "https://instance/@user" := by
  refine ⟨by decide, by decide, by decide⟩

/-- `models.Target`: a (protocol label, uri) value with field-wise equality. -/
structure Target : Type where
  protocol : String
  uri : String
deriving DecidableEq, Repr

/-- `common.add(seq, val)`: append `val` iff `seq` does not already contain it
(repeated ndb properties are treated as sets).  `models.Object.add` routes
through this helper. -/
def listAdd (seq : List Target) (val : Target) : List Target :=
  if val ∈ seq then seq else seq ++ [val]

/-- Modelled from the spec: `models.Object.remove` lives in `models.py`, which
is not under src/; per the data model (§3: the target lists are treated as
sets) it deletes the value from the repeated property, ie Python
`list.remove`, dropping the first occurrence. -/
def listRemove (seq : List Target) (val : Target) : List Target := seq.erase val

/-- The slice of a `models.Object` that the send task reads and writes:
per-target delivery state plus `status`. -/
structure ObjState : Type where
  undelivered : List Target
  delivered : List Target
  failed : List Target
  status : Option String
deriving DecidableEq, Repr

/-- The transactional `update_object` closure inside `protocol.send_task`.
`sent` is the plugin outcome: `some true` = sent, `some false` = refused,
`none` = the plugin raised. -/
def update_object (st : ObjState) (target : Target) (sent : Option Bool) :
    ObjState :=
  let st1 : ObjState :=
    if target ∈ st.undelivered then
      { st with undelivered := listRemove st.undelivered target }
    else st
  let st2 : ObjState :=
    match sent with
    | none => { st1 with failed := listAdd st1.failed target }
    | some s =>
      let st1' : ObjState :=
        if target ∈ st1.failed then
          { st1 with failed := listRemove st1.failed target }
        else st1
      if s then { st1' with delivered := listAdd st1'.delivered target }
      else st1'
  if st2.undelivered = [] then
    { st2 with
      status := some (if st2.delivered ≠ [] then "complete"
                      else if st2.failed ≠ [] then "failed"
                      else "ignored") }
  else st2

/-- The form parameters of a `send` task. -/
structure SendForm : Type where
  url : Option String
  protocol : Option String
  force : Bool

/-- `protocol.send_task`: returns the HTTP status, the Object state after the
task, and whether the destination plugin's `send` was invoked.  `plugin` is
the outcome the plugin's `send` would produce if called. -/
def send_task (form : SendForm) (st : ObjState) (plugin : Option Bool) :
    Nat × ObjState × Bool :=
  match form.url, form.protocol with
  | some url, some protocol =>
    if url = "" ∨ protocol = "" then (204, st, false)
    else
      let target : Target := ⟨protocol, url⟩
      if target ∉ st.undelivered ∧ target ∉ st.failed ∧ ¬ form.force then
        (204, st, false)
      else
        let st' := update_object st target plugin
        ((match plugin with
          | some true => 200
          | some false => 204
          | none => 304), st', true)
  | _, _ => (204, st, false)

theorem listAdd_mem {seq : List Target} {val t : Target} :
    t ∈ listAdd seq val ↔ t ∈ seq ∨ t = val := by
  unfold listAdd
  split
  case isTrue hv =>
    constructor
    · exact fun h => Or.inl h
    · rintro (h | rfl)
      · exact h
      · exact hv
  case isFalse hv =>
    simp [List.mem_append]

theorem listAdd_self_mem (seq : List Target) (val : Target) :
    val ∈ listAdd seq val := listAdd_mem.mpr (Or.inr rfl)

theorem listRemove_subset {seq : List Target} {val t : Target}
    (h : t ∈ listRemove seq val) : t ∈ seq :=
  List.mem_of_mem_erase h

theorem listRemove_not_mem {seq : List Target} {val : Target}
    (hnd : seq.Nodup) : val ∉ listRemove seq val := by
  intro h
  exact ((List.Nodup.mem_erase_iff hnd).mp h).1 rfl

/-- The `delivered` list produced by `update_object`. -/
def updDelivered (st : ObjState) (target : Target) (sent : Option Bool) :
    List Target :=
  if sent = some true then listAdd st.delivered target else st.delivered

/-- The `failed` list produced by `update_object`. -/
def updFailed (st : ObjState) (target : Target) : Option Bool → List Target
  | none => listAdd st.failed target
  | some _ => st.failed.erase target

/-- Closed form of the transactional update. -/
theorem update_object_eq (st : ObjState) (target : Target) (sent : Option Bool) :
    update_object st target sent =
      { undelivered := st.undelivered.erase target
        delivered := updDelivered st target sent
        failed := updFailed st target sent
        status :=
          if st.undelivered.erase target = [] then
            some (if updDelivered st target sent ≠ [] then "complete"
                  else if updFailed st target sent ≠ [] then "failed"
                  else "ignored")
          else st.status } := by
  have key : ∀ (c : Prop) (inst : Decidable c) (a b d : List Target)
      (s1 s2 : Option String),
      (if c then ObjState.mk a b d s1 else ObjState.mk a b d s2) =
        ObjState.mk a b d (if c then s1 else s2) := by
    intro c inst a b d s1 s2
    split <;> rfl
  rcases sent with _ | s
  · by_cases h1 : target ∈ st.undelivered <;>
      simp [update_object, listRemove, updDelivered, updFailed, h1,
            List.erase_of_not_mem, key]
  · rcases s with _ | _ <;> by_cases h1 : target ∈ st.undelivered <;>
      by_cases h2 : target ∈ st.failed <;>
      simp [update_object, listRemove, updDelivered, updFailed, h1, h2,
            List.erase_of_not_mem, key]

theorem update_object_undelivered (st : ObjState) (target : Target)
    (sent : Option Bool) :
    (update_object st target sent).undelivered = st.undelivered.erase target := by
  rw [update_object_eq]

theorem update_object_delivered (st : ObjState) (target : Target)
    (sent : Option Bool) :
    (update_object st target sent).delivered = updDelivered st target sent := by
  rw [update_object_eq]

theorem update_object_failed (st : ObjState) (target : Target)
    (sent : Option Bool) :
    (update_object st target sent).failed = updFailed st target sent := by
  rw [update_object_eq]

theorem update_object_status (st : ObjState) (target : Target)
    (sent : Option Bool) :
    (update_object st target sent).status =
      if (update_object st target sent).undelivered = [] then
        some (if (update_object st target sent).delivered ≠ [] then "complete"
              else if (update_object st target sent).failed ≠ [] then "failed"
              else "ignored")
      else st.status := by
  simp only [update_object_eq]


/-- C1.  After `send_task`'s transactional update for target `T` on Object
`o`: `T` is no longer in `undelivered`; if the plugin raised, `T` is in
`failed`; if it returned sent, `T` is in `delivered` and not in `failed`;
whenever `undelivered` ends up empty the `status` is `complete` / `failed` /
`ignored` according to whether `delivered` resp. `failed` are non-empty; and
the disjointness invariant `undelivered ∩ delivered = ∅`,
`undelivered ∩ failed = ∅` is preserved.  The hypotheses are the data-model
invariant that the repeated properties are duplicate-free sets. -/
theorem C1_update_object_invariants (st : ObjState) (target : Target)
    (sent : Option Bool)
    (hU : st.undelivered.Nodup) (hF : st.failed.Nodup)
    (hUD : ∀ t ∈ st.undelivered, t ∉ st.delivered)
    (hUF : ∀ t ∈ st.undelivered, t ∉ st.failed) :
    target ∉ (update_object st target sent).undelivered
    ∧ (sent = none → target ∈ (update_object st target sent).failed)
    ∧ (sent = some true → target ∈ (update_object st target sent).delivered
        ∧ target ∉ (update_object st target sent).failed)
    ∧ ((update_object st target sent).undelivered = [] →
        (update_object st target sent).status =
          some (if (update_object st target sent).delivered ≠ [] then "complete"
                else if (update_object st target sent).failed ≠ [] then "failed"
                else "ignored"))
    ∧ (∀ t ∈ (update_object st target sent).undelivered,
        t ∉ (update_object st target sent).delivered)
    ∧ (∀ t ∈ (update_object st target sent).undelivered,
        t ∉ (update_object st target sent).failed) := by
  have hu := update_object_undelivered st target sent
  have hd := update_object_delivered st target sent
  have hf := update_object_failed st target sent
  have hs := update_object_status st target sent
  have hnotmem : target ∉ (update_object st target sent).undelivered := by
    rw [hu]; exact fun h => ((List.Nodup.mem_erase_iff hU).mp h).1 rfl
  have hsubset : ∀ t ∈ (update_object st target sent).undelivered,
      t ∈ st.undelivered := by
    rw [hu]; exact fun t ht => List.mem_of_mem_erase ht
  refine ⟨hnotmem, ?_, ?_, ?_, ?_, ?_⟩
  · intro h; subst h
    rw [hf]; exact listAdd_self_mem _ _
  · intro h; subst h
    constructor
    · rw [hd]; simp [updDelivered, listAdd_self_mem]
    · rw [hf]
      exact fun h => ((List.Nodup.mem_erase_iff hF).mp h).1 rfl
  · intro hemp
    rw [hs, if_pos hemp]
  · intro t ht hmem
    have htne : t ≠ target := fun h => hnotmem (h ▸ ht)
    have htst : t ∈ st.undelivered := hsubset t ht
    rw [hd] at hmem
    unfold updDelivered at hmem
    split at hmem
    · rcases listAdd_mem.mp hmem with h | h
      · exact hUD t htst h
      · exact htne h
    · exact hUD t htst hmem
  · intro t ht hmem
    have htne : t ≠ target := fun h => hnotmem (h ▸ ht)
    have htst : t ∈ st.undelivered := hsubset t ht
    rw [hf] at hmem
    rcases sent with _ | s
    · rcases listAdd_mem.mp hmem with h | h
      · exact hUF t htst h
      · exact htne h
    · exact hUF t htst (List.mem_of_mem_erase hmem)

/-- C1 (witness): a concrete run of the update — one undelivered target,
successful send. -/
theorem C1_update_object_invariants_witness :
    let st : ObjState := ⟨[⟨"web", "https://w/inbox"⟩], [], [], some "in progress"⟩
    let t : Target := ⟨"web", "https://w/inbox"⟩
    t ∉ (update_object st t (some true)).undelivered
    ∧ (some true = none → t ∈ (update_object st t (some true)).failed)
    ∧ (some true = some true → t ∈ (update_object st t (some true)).delivered
        ∧ t ∉ (update_object st t (some true)).failed)
    ∧ ((update_object st t (some true)).undelivered = [] →
        (update_object st t (some true)).status =
          some (if (update_object st t (some true)).delivered ≠ [] then "complete"
                else if (update_object st t (some true)).failed ≠ [] then "failed"
                else "ignored"))
    ∧ (∀ x ∈ (update_object st t (some true)).undelivered,
        x ∉ (update_object st t (some true)).delivered)
    ∧ (∀ x ∈ (update_object st t (some true)).undelivered,
        x ∉ (update_object st t (some true)).failed) :=
  C1_update_object_invariants _ _ (some true)
    (by decide) (by decide) (by decide) (by decide)

/-- C2.  A `send` task whose target is in neither `undelivered` nor `failed`,
with no force flag, returns 204, never invokes the destination plugin's
`send`, and leaves the Object's delivery state untouched — for every possible
plugin outcome. -/
theorem C2_send_task_idempotent_noop (st : ObjState) (url protocol : String)
    (plugin : Option Bool)
    (hu : url ≠ "") (hp : protocol ≠ "")
    (hund : Target.mk protocol url ∉ st.undelivered)
    (hfail : Target.mk protocol url ∉ st.failed) :
    send_task ⟨some url, some protocol, false⟩ st plugin = (204, st, false) := by
  unfold send_task
  simp [hu, hp, hund, hfail]

/-- C2 (witness): concrete no-op run after a completed delivery. -/
theorem C2_send_task_idempotent_noop_witness :
    send_task ⟨some "https://w/inbox", some "web", false⟩
      ⟨[], [⟨"web", "https://w/inbox"⟩], [], some "complete"⟩ (some true) =
      (204, ⟨[], [⟨"web", "https://w/inbox"⟩], [], some "complete"⟩, false) :=
  C2_send_task_idempotent_noop _ _ _ (some true)
    (by decide) (by decide) (by decide) (by decide)

/-- The AS1 fields that the front half of `Protocol.receive` inspects
directly; the owner (`as1.get_owner`) is read through the environment. -/
structure AS1 : Type where
  id : Option String
  objectType : Option String
deriving DecidableEq, Repr

/-- The slice of the incoming `models.Object` that `Protocol.receive`'s front
half reads: the datastore key id, the canonical payload, and the transient
`new`/`changed` booleans (Python `None`/`True`/`False`). -/
structure RcvObject : Type where
  keyId : Option String
  as1 : Option AS1
  new : Option Bool
  changed : Option Bool
deriving DecidableEq, Repr

/-- The bounded `seen_ids` LRU cache (`cachetools.LRUCache(100000)`), most
recently used first. -/
structure LRU : Type where
  cap : Nat
  entries : List String
deriving DecidableEq, Repr

/-- `id in seen_ids`. -/
def LRU.hasKey (l : LRU) (k : String) : Bool := k ∈ l.entries

/-- `seen_ids[id] = True`: mark `k` most recently used, evicting from the
least recently used end past capacity. -/
def LRU.insert (l : LRU) (k : String) : LRU :=
  { l with entries := (k :: l.entries.erase k).take l.cap }

/-- The externals `Protocol.receive`'s front half calls, over an abstract
datastore type `σ`, plus `rest`: everything after the authorization check
(normalization, persistence, dispatch, fan-out), which may mutate the
datastore and enqueue send tasks but never touches `seen_ids` (the source
reads `seen_ids` only at protocol.py:737-739). -/
structure RcvEnv (σ : Type) : Type where
  /-- `from_cls.is_blocklisted(id, allow_internal=internal)`. -/
  isBlocklisted : Proto → String → Bool → Bool
  /-- truthiness of `from_cls.load(id, remote=False)`. -/
  loadLocalFound : σ → String → Bool
  /-- `as1.get_owner(obj.as1)`. -/
  getOwner : AS1 → Option String
  /-- `from_cls.owns_id(actor)`. -/
  ownsId : Proto → String → Option Bool
  /-- `ids.normalize_user_id(id, proto)`. -/
  normalizeUserId : Proto → String → String
  /-- the remainder of `receive` after authorization: returns the HTTP status,
  the mutated datastore, and the enqueued send tasks. -/
  rest : σ → Nat × σ × List Target

/-- `Protocol.receive` from the actor-authorization check onward
(protocol.py:749-764): extract the owner, reject foreign actors with 204,
reject an authed/actor mismatch with 403, otherwise run the remainder. -/
def receiveAuthed {σ : Type} (env : RcvEnv σ) (cls : Proto) (seen : LRU)
    (ds : σ) (a : AS1) (authed_as : String) : Nat × LRU × σ × List Target :=
  match env.getOwner a with
  | none => (400, seen, ds, [])
  | some actor =>
    if env.ownsId cls actor = some false then (204, seen, ds, [])
    else
      let authedN := env.normalizeUserId cls authed_as
      let actorN := env.normalizeUserId cls actor
      if actorN ≠ authedN then (403, seen, ds, [])
      else
        let r := env.rest ds
        (r.1, seen, r.2.1, r.2.2)

/-- Resolution of the activity id in `Protocol.receive` (protocol.py:720-726):
the Object key id if truthy, else the payload's `id` field. -/
def resolveId (keyId : Option String) (a : AS1) : Option String :=
  match keyId with
  | some k => if k = "" then a.id else some k
  | none => a.id

/-- `Protocol.receive` (protocol.py:695-764 and onward): identity check,
blocklist check, the seen-ids dedup short circuit for activities, then the
authorization phase and the remainder.  Returns the HTTP status, the seen-ids
cache, the datastore, and the enqueued send tasks. -/
def receive {σ : Type} (env : RcvEnv σ) (cls : Proto) (seen : LRU) (ds : σ)
    (obj : RcvObject) (authed_as : String) (force internal : Bool) :
    Nat × LRU × σ × List Target :=
  match obj.as1 with
  | none => (400, seen, ds, [])
  | some a =>
    match resolveId obj.keyId a with
    | none => (400, seen, ds, [])
    | some id =>
      if id = "" then (400, seen, ds, [])
      else if env.isBlocklisted cls id internal then (400, seen, ds, [])
      else if a.objectType = some "activity" ∧ force = false then
        if seen.hasKey id = true
            ∨ (obj.new = some false ∧ obj.changed = some false)
            ∨ (obj.new = none ∧ obj.changed = none
                ∧ env.loadLocalFound ds id = true) then
          (204, seen.insert id, ds, [])
        else receiveAuthed env cls (seen.insert id) ds a authed_as
      else receiveAuthed env cls seen ds a authed_as

theorem receiveAuthed_seen {σ : Type} (env : RcvEnv σ) (cls : Proto)
    (seen : LRU) (ds : σ) (a : AS1) (authed_as : String) :
    (receiveAuthed env cls seen ds a authed_as).2.1 = seen := by
  unfold receiveAuthed
  rcases h : env.getOwner a with _ | actor
  · rfl
  · simp only
    split
    · rfl
    · split <;> rfl

theorem LRU.insert_hasKey (l : LRU) (k : String) (hcap : 1 ≤ l.cap) :
    (l.insert k).hasKey k = true := by
  rcases hc : l.cap with _ | n
  · rw [hc] at hcap; omega
  · unfold LRU.insert LRU.hasKey
    simp [hc, List.take_succ_cons]

/-- For an activity that passes the identity and blocklist gates with no force
flag, `receive` always records the id in the seen-ids cache, whichever branch
it then takes. -/
theorem receive_records_seen {σ : Type} (env : RcvEnv σ) (cls : Proto)
    (seen : LRU) (ds : σ) (obj : RcvObject) (authed_as : String)
    (internal : Bool) (a : AS1) (id : String)
    (h1 : obj.as1 = some a) (h2 : obj.keyId = some id) (h3 : id ≠ "")
    (h4 : env.isBlocklisted cls id internal = false)
    (h5 : a.objectType = some "activity") :
    (receive env cls seen ds obj authed_as false internal).2.1 =
      seen.insert id := by
  have hres : resolveId obj.keyId a = some id := by
    simp [resolveId, h2, h3]
  unfold receive
  rw [h1]
  simp only [hres]
  rw [if_neg h3, if_neg (by simp [h4]), if_pos (by simp [h5])]
  split
  · rfl
  · exact receiveAuthed_seen env cls (seen.insert id) ds a authed_as

/-- C3.  Replaying an activity (`objectType=activity`, no force flag) through
`receive` after a first receive is a no-op: the first call records the id in
the seen-ids LRU, so the second call with the same id short-circuits at the
dedup gate — before any datastore access — returning 204, leaving the
persisted state exactly as the first call left it, and enqueuing nothing. -/
theorem C3_receive_replay_noop {σ : Type} (env : RcvEnv σ) (cls : Proto)
    (seen : LRU) (ds : σ) (obj : RcvObject) (authed_as : String)
    (internal : Bool) (a : AS1) (id : String)
    (h1 : obj.as1 = some a) (h2 : obj.keyId = some id) (h3 : id ≠ "")
    (h4 : env.isBlocklisted cls id internal = false)
    (h5 : a.objectType = some "activity")
    (hcap : 1 ≤ seen.cap) :
    receive env cls
        (receive env cls seen ds obj authed_as false internal).2.1
        (receive env cls seen ds obj authed_as false internal).2.2.1
        obj authed_as false internal =
      (204,
       ((receive env cls seen ds obj authed_as false internal).2.1).insert id,
       (receive env cls seen ds obj authed_as false internal).2.2.1,
       []) := by
  have hseen := receive_records_seen env cls seen ds obj authed_as internal
    a id h1 h2 h3 h4 h5
  rw [hseen]
  have hmem : (seen.insert id).hasKey id = true := LRU.insert_hasKey seen id hcap
  have hres : resolveId obj.keyId a = some id := by
    simp [resolveId, h2, h3]
  unfold receive
  rw [h1]
  simp only [hres]
  rw [if_neg h3, if_neg (by simp [h4]), if_pos (by simp [h5]),
      if_pos (Or.inl hmem)]

/-- C3 (witness): a concrete replay — empty cache of capacity 100000, a
datastore counter that `rest` increments while enqueuing one send task. -/
theorem C3_receive_replay_noop_witness :
    let env : RcvEnv Nat :=
      { isBlocklisted := fun _ _ _ => false
        loadLocalFound := fun _ _ => false
        getOwner := fun _ => some "https://inst/alice"
        ownsId := fun _ _ => none
        normalizeUserId := fun _ s => s
        rest := fun ds => (202, ds + 1, [⟨"web", "https://w/inbox"⟩]) }
    let obj : RcvObject := ⟨some "https://inst/follow1",
      some ⟨some "https://inst/follow1", some "activity"⟩, none, none⟩
    receive env .activitypub
        (receive env .activitypub ⟨100000, []⟩ 0 obj "https://inst/alice"
          false false).2.1
        (receive env .activitypub ⟨100000, []⟩ 0 obj "https://inst/alice"
          false false).2.2.1
        obj "https://inst/alice" false false =
      (204,
       ((receive env .activitypub ⟨100000, []⟩ 0 obj "https://inst/alice"
          false false).2.1).insert "https://inst/follow1",
       (receive env .activitypub ⟨100000, []⟩ 0 obj "https://inst/alice"
          false false).2.2.1,
       []) :=
  C3_receive_replay_noop _ _ _ _ _ _ _ _ _
    rfl rfl (by decide) rfl rfl (by decide)

/-- C4.  When the normalized actor and the normalized `authed_as` principal
differ, `receive` fails with 403 and performs no persisted-state mutation, no
dispatch and no fan-out; the hypotheses state that the earlier gates
(identity, blocklist, dedup, actor extraction, actor ownership) let the
request reach the authorization check. -/
theorem C4_receive_403_on_auth_mismatch {σ : Type} (env : RcvEnv σ)
    (cls : Proto) (seen : LRU) (ds : σ) (obj : RcvObject)
    (authed_as : String) (force internal : Bool) (a : AS1) (id actor : String)
    (h1 : obj.as1 = some a) (h2 : obj.keyId = some id) (h3 : id ≠ "")
    (h4 : env.isBlocklisted cls id internal = false)
    (hdedup : a.objectType = some "activity" → force = false →
      (seen.hasKey id = false
       ∧ ¬(obj.new = some false ∧ obj.changed = some false)
       ∧ ¬(obj.new = none ∧ obj.changed = none
            ∧ env.loadLocalFound ds id = true)))
    (h5 : env.getOwner a = some actor)
    (h6 : env.ownsId cls actor ≠ some false)
    (h7 : env.normalizeUserId cls actor ≠ env.normalizeUserId cls authed_as) :
    (receive env cls seen ds obj authed_as force internal).1 = 403
    ∧ (receive env cls seen ds obj authed_as force internal).2.2.1 = ds
    ∧ (receive env cls seen ds obj authed_as force internal).2.2.2 = [] := by
  have hauth : ∀ s, receiveAuthed env cls s ds a authed_as = (403, s, ds, []) := by
    intro s
    unfold receiveAuthed
    rw [h5]
    simp only [if_neg h6]
    rw [if_pos h7]
  have hres : resolveId obj.keyId a = some id := by
    simp [resolveId, h2, h3]
  unfold receive
  rw [h1]
  simp only [hres]
  rw [if_neg h3, if_neg (by simp [h4])]
  split
  case isTrue hact =>
    rw [if_neg]
    · rw [hauth]
      exact ⟨rfl, rfl, rfl⟩
    · rcases hdedup hact.1 hact.2 with ⟨hk, hn, hl⟩
      rintro (hc | hc | hc)
      · rw [hk] at hc; cases hc
      · exact hn hc
      · exact hl hc
  case isFalse hact =>
    rw [hauth]
    exact ⟨rfl, rfl, rfl⟩

/-- C4 (witness): a concrete mismatch — actor `https://inst/mallory` sent
with `authed_as = https://inst/alice`. -/
theorem C4_receive_403_on_auth_mismatch_witness :
    let env : RcvEnv Nat :=
      { isBlocklisted := fun _ _ _ => false
        loadLocalFound := fun _ _ => false
        getOwner := fun _ => some "https://inst/mallory"
        ownsId := fun _ _ => none
        normalizeUserId := fun _ s => s
        rest := fun ds => (202, ds + 1, [⟨"web", "https://w/inbox"⟩]) }
    let obj : RcvObject := ⟨some "https://inst/like1",
      some ⟨some "https://inst/like1", some "activity"⟩, none, none⟩
    (receive env .activitypub ⟨100000, []⟩ 0 obj "https://inst/alice"
        false false).1 = 403
    ∧ (receive env .activitypub ⟨100000, []⟩ 0 obj "https://inst/alice"
        false false).2.2.1 = 0
    ∧ (receive env .activitypub ⟨100000, []⟩ 0 obj "https://inst/alice"
        false false).2.2.2 = [] :=
  C4_receive_403_on_auth_mismatch _ _ _ _ _ _ _ _ _ _ "https://inst/mallory"
    rfl rfl (by decide) rfl
    (fun _ _ => ⟨rfl, by simp, by simp⟩)
    rfl (by simp) (by decide)

/-- `isPref p s`: `p` is a prefix of `s` (Python `str.startswith`). -/
def isPref : List Char → List Char → Bool
  | [], _ => true
  | _ :: _, [] => false
  | p :: ps, c :: cs => p == c && isPref ps cs

/-- Python `str.startswith`. -/
def startsWithS (s p : String) : Bool := isPref p.data s.data

/-- Python `str.removeprefix` after a successful `startswith` check. -/
def dropPrefS (s p : String) : String := ⟨s.data.drop p.data.length⟩

theorem isPref_append (xs ys : List Char) : isPref xs (xs ++ ys) = true := by
  induction xs with
  | nil => rfl
  | cons a as ih => simp [isPref, ih]

theorem startsWithS_append (p u : String) : startsWithS (p ++ u) p = true :=
  isPref_append p.data u.data

theorem dropPrefS_append (p u : String) : dropPrefS (p ++ u) p = u := by
  unfold dropPrefS
  show String.mk ((p.data ++ u.data).drop p.data.length) = u
  rw [List.drop_left]

/-- The defensive scheme expansion at redirect.py:59-61:
`re.sub(r'^(https?:/)([^/])', r'\1/\2', to)` — re-expand a browser-collapsed
single slash after the scheme. -/
def expandScheme (s : String) : String :=
  let cs := s.data
  if cs.take 8 = "https://".data then s
  else if cs.take 7 = "https:/".data ∧ 8 ≤ cs.length then
    ⟨"https://".data ++ cs.drop 7⟩
  else if cs.take 7 = "http://".data then s
  else if cs.take 6 = "http:/".data ∧ 7 ≤ cs.length then
    ⟨"http://".data ++ cs.drop 6⟩
  else s

/-- `redirect.DOMAIN_ALLOWLIST`. -/
def DOMAIN_ALLOWLIST : List String := ["bsky.app"]

/-- An object as the redirect endpoint sees it after `proto.load`. -/
structure LoadedObj : Type where
  deleted : Bool
deriving DecidableEq, Repr

/-- The externals the `/r/<url>` endpoint calls. -/
structure RedirEnv : Type where
  /-- `util.is_web(to)`. -/
  isWeb : String → Bool
  /-- `urllib.parse.urlparse(to).hostname`: `none` models the `ValueError`,
  `some h` the (possibly absent) hostname. -/
  hostnameOf : String → Option (Option String)
  /-- `util.domain_from_link(to, minimize=True)`. -/
  domainMin : String → Option String
  /-- `util.domain_from_link(to, minimize=False)`. -/
  domainFull : String → Option String
  /-- `Web.get_by_id(domain)`. -/
  getWebUser : String → Option String
  /-- `Protocol.for_id(to)`. -/
  forId : String → Option Proto
  /-- `proto.load(to)`. -/
  load : Proto → String → Option LoadedObj
  /-- `Web.get_or_create(util.domain_from_link(to), direct=False, obj=obj)`. -/
  webGetOrCreate : Option String → Option String

/-- Outcome of the `for domain in domains: ... else:` loop at
redirect.py:90-99. -/
inductive ScanOut : Type
  | broke (webUser : Option String)
  | exhausted
deriving DecidableEq, Repr

/-- The web-user scan: skip falsy domains; break on an allowlisted domain
(leaving `web_user = None`) or on a stored Web user. -/
def scanDomains (env : RedirEnv) : List (Option String) → ScanOut
  | [] => .exhausted
  | none :: rest => scanDomains env rest
  | some d :: rest =>
    if d = "" then scanDomains env rest
    else if d ∈ DOMAIN_ALLOWLIST then .broke none
    else
      match env.getWebUser d with
      | some u => .broke (some u)
      | none => scanDomains env rest

/-- Side effects the endpoint can perform, in order. -/
inductive RedirEffect : Type
  | fetched
  | createdWebUser
  | converted
deriving DecidableEq, Repr

/-- The observable responses of the `/r/<url>` endpoint, one constructor per
distinct response body. -/
inductive RedirResult : Type
  | badRequest
  | noWebUser
  | noProtocol
  | objectNotFound
  | redirect (loc : String)
  | served
deriving DecidableEq, Repr

/-- HTTP status of each response. -/
def statusOf : RedirResult → Nat
  | .badRequest => 400
  | .noWebUser => 404
  | .noProtocol => 404
  | .objectNotFound => 404
  | .redirect _ => 301
  | .served => 200

/-- The web-user scan the endpoint runs over the three domain variants of the
target URL. -/
def redirScan (env : RedirEnv) (toUrl : String) (toDomain : Option String) :
    ScanOut :=
  scanDomains env
    [env.domainMin (expandScheme toUrl), env.domainFull (expandScheme toUrl), toDomain]

/-- The `web_user` value after the scan loop. -/
def scanUser : ScanOut → Option String
  | .broke u => u
  | .exhausted => none

/-- `redirect.redir` (redirect.py:48-143).  `accept_as2` is the outcome of the
content negotiation on the Accept header. -/
def redir (env : RedirEnv) (toUrl : String) (accept_as2 : Bool) :
    RedirResult × List RedirEffect :=
  if env.isWeb (expandScheme toUrl) = false then (.badRequest, [])
  else
    match env.hostnameOf (expandScheme toUrl) with
    | none => (.badRequest, [])
    | some toDomain =>
      if redirScan env toUrl toDomain = .exhausted ∧ accept_as2 = false then
        (.noWebUser, [])
      else if accept_as2 = false then (.redirect (expandScheme toUrl), [])
      else
        match env.forId (expandScheme toUrl) with
        | none => (.noProtocol, [])
        | some proto =>
          match env.load proto (expandScheme toUrl) with
          | none => (.objectNotFound, [.fetched])
          | some obj =>
            if obj.deleted then (.objectNotFound, [.fetched])
            else if proto = .web ∧ scanUser (redirScan env toUrl toDomain) = none then
              match env.webGetOrCreate (env.domainMin (expandScheme toUrl)) with
              | none => (.objectNotFound, [.fetched, .createdWebUser])
              | some _ => (.served, [.fetched, .createdWebUser, .converted])
            else (.served, [.fetched, .converted])

/-- C8.  A request `GET /r/<url>` whose url (after the defensive single-slash
expansion the source applies first) is not syntactically a web URL gets a 400
response, with no redirect, no fetch, no user creation, and no conversion —
for any Accept header. -/
theorem C8_redir_400_on_non_web_url (env : RedirEnv) (toUrl : String)
    (accept_as2 : Bool)
    (h : env.isWeb (expandScheme toUrl) = false) :
    redir env toUrl accept_as2 = (.badRequest, [])
    ∧ statusOf (redir env toUrl accept_as2).1 = 400 := by
  constructor
  · simp [redir, h]
  · simp [redir, h, statusOf]

/-- C8 (witness): a URL with no scheme. -/
theorem C8_redir_400_on_non_web_url_witness :
    let env : RedirEnv :=
      { isWeb := fun s => startsWithS s "https://" || startsWithS s "http://"
        hostnameOf := fun _ => some none
        domainMin := fun _ => none
        domainFull := fun _ => none
        getWebUser := fun _ => none
        forId := fun _ => none
        load := fun _ _ => none
        webGetOrCreate := fun _ => none }
    redir env "not-a-url" true = (.badRequest, [])
    ∧ statusOf (redir env "not-a-url" true).1 = 400 :=
  C8_redir_400_on_non_web_url _ "not-a-url" true (by decide)

/-- C10 (counterexample).  The claim says that with AS2 conneg the endpoint
returns 404 only if protocol resolution or the load fails.  But when the
resolved protocol is Web and no stored web user matched, the source
additionally calls `Web.get_or_create` (redirect.py:130-133) and returns the
`Object not found` 404 when that returns nothing — here protocol resolution
and the load both succeed, yet the response is 404. -/
theorem C10_claim_false_on_web_user_creation_failure :
    let env : RedirEnv :=
      { isWeb := fun _ => true
        hostnameOf := fun _ => some (some "ex.com")
        domainMin := fun _ => some "ex.com"
        domainFull := fun _ => some "ex.com"
        getWebUser := fun _ => none
        forId := fun _ => some .web
        load := fun _ _ => some ⟨false⟩
        webGetOrCreate := fun _ => none }
    env.forId (expandScheme "https://ex.com/post") = some .web
    ∧ env.load .web (expandScheme "https://ex.com/post") = some ⟨false⟩
    ∧ redir env "https://ex.com/post" true =
        (.objectNotFound, [.fetched, .createdWebUser])
    ∧ statusOf (redir env "https://ex.com/post" true).1 = 404 := by
  exact ⟨rfl, rfl, rfl, rfl⟩

/-- C10 (amended).  With AS2 conneg, the `no web user found` 404 is bypassed:
the endpoint never returns that response, its outcome is either the converted
200 or a 404, and any 404 arises only because protocol resolution failed, the
load failed or returned a deleted object, or — when the resolved protocol is
Web and the scan found no stored web user — creating the Web user for the
URL's domain failed. -/
theorem C10_as2_bypasses_web_user_404 (env : RedirEnv) (toUrl : String)
    (td : Option String)
    (hweb : env.isWeb (expandScheme toUrl) = true)
    (hhost : env.hostnameOf (expandScheme toUrl) = some td) :
    (redir env toUrl true).1 ≠ .noWebUser
    ∧ ((redir env toUrl true).1 = .served ∨ statusOf (redir env toUrl true).1 = 404)
    ∧ (statusOf (redir env toUrl true).1 = 404 →
        env.forId (expandScheme toUrl) = none
        ∨ (∃ p, env.forId (expandScheme toUrl) = some p ∧
            (env.load p (expandScheme toUrl) = none
             ∨ (∃ o, env.load p (expandScheme toUrl) = some o ∧ o.deleted = true)
             ∨ (p = .web
                ∧ env.webGetOrCreate (env.domainMin (expandScheme toUrl)) = none)))) := by
  unfold redir
  rw [hweb, hhost]
  simp only [Bool.true_eq_false, if_false, and_false]
  rcases hfid : env.forId (expandScheme toUrl) with _ | proto
  · exact ⟨by simp, Or.inr rfl, fun _ => Or.inl rfl⟩
  · dsimp only
    rcases hload : env.load proto (expandScheme toUrl) with _ | obj
    · exact ⟨by simp, Or.inr rfl, fun _ => Or.inr ⟨proto, rfl, Or.inl hload⟩⟩
    · dsimp only
      rcases hdel : obj.deleted with _ | _
      · rw [if_neg (by simp [hdel])]
        by_cases hwb : proto = Proto.web
            ∧ scanUser (redirScan env toUrl td) = none
        · rw [if_pos hwb]
          rcases hgoc : env.webGetOrCreate (env.domainMin (expandScheme toUrl))
            with _ | u
          · exact ⟨by simp, Or.inr rfl,
              fun _ => Or.inr ⟨proto, rfl, Or.inr (Or.inr ⟨hwb.1, rfl⟩)⟩⟩
          · exact ⟨by simp, Or.inl rfl, fun h => absurd h (by simp [statusOf])⟩
        · rw [if_neg hwb]
          exact ⟨by simp, Or.inl rfl, fun h => absurd h (by simp [statusOf])⟩
      · rw [if_pos (by simp [hdel])]
        exact ⟨by simp, Or.inr rfl,
          fun _ => Or.inr ⟨proto, rfl, Or.inr (Or.inl ⟨obj, hload, hdel⟩)⟩⟩

/-- C10 (witness for the amended theorem): the same environment as the
counterexample, where the 404 comes from the Web-user creation branch. -/
theorem C10_as2_bypasses_web_user_404_witness :
    let env : RedirEnv :=
      { isWeb := fun _ => true
        hostnameOf := fun _ => some (some "ex.com")
        domainMin := fun _ => some "ex.com"
        domainFull := fun _ => some "ex.com"
        getWebUser := fun _ => none
        forId := fun _ => some .web
        load := fun _ _ => some ⟨false⟩
        webGetOrCreate := fun _ => none }
    (redir env "https://ex.com/post" true).1 ≠ .noWebUser
    ∧ ((redir env "https://ex.com/post" true).1 = .served
        ∨ statusOf (redir env "https://ex.com/post" true).1 = 404)
    ∧ (statusOf (redir env "https://ex.com/post" true).1 = 404 →
        env.forId (expandScheme "https://ex.com/post") = none
        ∨ (∃ p, env.forId (expandScheme "https://ex.com/post") = some p ∧
            (env.load p (expandScheme "https://ex.com/post") = none
             ∨ (∃ o, env.load p (expandScheme "https://ex.com/post") = some o
                  ∧ o.deleted = true)
             ∨ (p = .web
                ∧ env.webGetOrCreate
                    (env.domainMin (expandScheme "https://ex.com/post")) = none)))) :=
  C10_as2_bypasses_web_user_404 _ "https://ex.com/post" (some "ex.com") rfl rfl

/-- Python `str.endswith`. -/
def endsWithS (s suf : String) : Bool := isPref suf.data.reverse s.data.reverse

/-- `util.domain_or_parent_in(input, domains)` (webutil): the input equals a
listed domain or is a subdomain of one. -/
def domain_or_parent_in (input : String) (domains : List String) : Bool :=
  domains.any (fun d => input == d || endsWithS input ("." ++ d))

/-- The flask request context `common.host_url` reads. -/
structure ReqCtx : Type where
  scheme : String
  host : String
  debug : Bool

/-- `common.host_url(path_query)`: requests on the per-protocol or local
domains are canonicalized onto the primary domain. -/
def host_url (ctx : ReqCtx) (pathQuery : String) : String :=
  if domain_or_parent_in ctx.host OTHER_DOMAINS
      || (!ctx.debug && LOCAL_DOMAINS.contains ctx.host) then
    "https://" ++ PRIMARY_DOMAIN ++ pathQuery
  else ctx.scheme ++ "://" ++ ctx.host ++ pathQuery

/-- The test `util.domain_from_link(url) in DOMAINS` in `redirect_wrap`;
`df` abstracts `util.domain_from_link` (a `None` result is never in the
tuple). -/
def domainInDomains (df : String → Option String) (url : String) : Bool :=
  match df url with
  | some d => DOMAINS.contains d
  | none => false

/-- `common.redirect_wrap(url)`. -/
def redirect_wrap (ctx : ReqCtx) (df : String → Option String)
    (url : String) : String :=
  if url = "" then url
  else if domainInDomains df url then url
  else host_url ctx "/r/" ++ url

/-- The nested loop of `common.redirect_unwrap` over
`DOMAINS x ('http', 'https')`: strip a matching `<base>r/` redirect prefix
when the remainder is a web URL, or re-derive a canonical home-page URL when
the remainder matches the bare-domain regex (`dr` abstracts
`re.match(DOMAIN_RE, path)`). -/
def unwrapGo (iw dr : String → Bool) (val : String) :
    List (String × String) → String
  | [] => val
  | (d, s) :: rest =>
    if startsWithS val (s ++ "://" ++ d ++ "/" ++ "r/") then
      (if iw (dropPrefS val (s ++ "://" ++ d ++ "/" ++ "r/")) then
        dropPrefS val (s ++ "://" ++ d ++ "/" ++ "r/")
      else unwrapGo iw dr val rest)
    else if startsWithS val (s ++ "://" ++ d ++ "/") then
      (if dr (dropPrefS val (s ++ "://" ++ d ++ "/")) then
        "https://" ++ dropPrefS val (s ++ "://" ++ d ++ "/") ++ "/"
      else unwrapGo iw dr val rest)
    else unwrapGo iw dr val rest

/-- `common.redirect_unwrap(val)` for a string value. -/
def redirect_unwrap (iw dr : String → Bool) (val : String) : String :=
  unwrapGo iw dr val (DOMAINS.flatMap (fun d => [(d, "http"), (d, "https")]))

theorem unwrap_wrapped_https (iw dr : String → Bool) (u : String)
    (hw : iw u = true) :
    redirect_unwrap iw dr ("https://fed.brid.gy/r/" ++ u) = u := if_pos hw

theorem unwrap_wrapped_http (iw dr : String → Bool) (u : String)
    (hw : iw u = true) :
    redirect_unwrap iw dr ("http://fed.brid.gy/r/" ++ u) = u := if_pos hw

/-- On any of the bridge's own domains, outside local-dev mode, the wrap
prefix `host_url('/r/')` is `fed.brid.gy/r/` under http or https. -/
theorem host_url_r_cases (ctx : ReqCtx) (hh : ctx.host ∈ DOMAINS)
    (hdbg : ctx.debug = false)
    (hs : ctx.scheme = "http" ∨ ctx.scheme = "https") :
    host_url ctx "/r/" = "https://fed.brid.gy/r/"
    ∨ host_url ctx "/r/" = "http://fed.brid.gy/r/" := by
  rcases ctx with ⟨scheme, host, debug⟩
  dsimp only at hh hdbg hs ⊢
  subst hdbg
  rcases hs with rfl | rfl <;> fin_cases hh <;>
    first
      | exact Or.inl rfl
      | exact Or.inr rfl

/-- C9.  Round trip of the redirect wrapping: for a web URL whose domain is
not one of the bridge's own domains, `redirect_unwrap (redirect_wrap u) = u`
(for requests arriving on any bridge domain, outside local-dev mode); and
`redirect_wrap` returns its input unchanged for a URL whose domain is in
DOMAINS and for an empty value. -/
theorem C9_redirect_wrap_unwrap_roundtrip (ctx : ReqCtx)
    (df : String → Option String) (iw dr : String → Bool) (u : String)
    (hh : ctx.host ∈ DOMAINS) (hdbg : ctx.debug = false)
    (hs : ctx.scheme = "http" ∨ ctx.scheme = "https")
    (hu : iw u = true) (hne : u ≠ "")
    (hdom : domainInDomains df u = false) :
    redirect_unwrap iw dr (redirect_wrap ctx df u) = u
    ∧ (∀ v : String, domainInDomains df v = true → redirect_wrap ctx df v = v)
    ∧ redirect_wrap ctx df "" = "" := by
  refine ⟨?_, ?_, rfl⟩
  · unfold redirect_wrap
    rw [if_neg hne, if_neg (by simp [hdom])]
    rcases host_url_r_cases ctx hh hdbg hs with h | h <;> rw [h]
    · exact unwrap_wrapped_https iw dr u hu
    · exact unwrap_wrapped_http iw dr u hu
  · intro v hv
    unfold redirect_wrap
    by_cases hv0 : v = ""
    · rw [if_pos hv0]
    · rw [if_neg hv0, if_pos hv]

/-- C9 (witness): wrapping `https://ex.com/post` on a request to
`fed.brid.gy` over https round-trips, and a value on `web.brid.gy` is left
unchanged. -/
theorem C9_redirect_wrap_unwrap_roundtrip_witness :
    let ctx : ReqCtx := ⟨"https", "fed.brid.gy", false⟩
    let df : String → Option String :=
      fun s => if s = "https://ex.com/post" then some "ex.com"
               else some "web.brid.gy"
    let iw : String → Bool := fun s => startsWithS s "https://"
    redirect_unwrap iw (fun _ => false)
        (redirect_wrap ctx df "https://ex.com/post") = "https://ex.com/post"
    ∧ (∀ v : String, domainInDomains df v = true →
        redirect_wrap ctx df v = v)
    ∧ redirect_wrap ctx df "" = "" :=
  C9_redirect_wrap_unwrap_roundtrip _ _ _ (fun _ => false) _
    (by decide) rfl (Or.inr rfl) (by decide) (by decide) (by decide)

/-- The loaded object as the delivery planner reads it: its owner, whether it
carries canonical data (`as1` truthy), and the protocols of its bridged
copies. -/
structure LObj : Type where
  owner : Option String
  hasAs1 : Bool
  copyProtocols : List Proto
deriving DecidableEq, Repr

/-- A follower row after `Follower.query(to == user_key, status ==
'active')`, paired with its `from_` user record. -/
structure FollowerU : Type where
  /-- truthiness of `Protocol.for_bridgy_subdomain(f.from_.id())`. -/
  isBot : Bool
  /-- the ndb kind of `f.from_` (one kind per protocol user model). -/
  kind : Proto
  /-- whether `ndb.get_multi` finds the user. -/
  present : Bool
  /-- `user.LABEL`. -/
  proto : Proto
  /-- `user.target_for(user.obj, shared=True) if user.obj else None`. -/
  tgt : Option String
deriving DecidableEq, Repr

/-- The slice of the activity `models.Object` the planner reads. -/
structure TObj : Type where
  sourceProtocol : Option String
  typ : Option String
  /-- `as1.get_owner(obj.as1)`. -/
  asOwner : Option String
  /-- `obj.as1.get('id')`. -/
  id : Option String
  /-- `obj.as1.get('url')`. -/
  url : Option String
deriving DecidableEq, Repr

/-- The externals `Protocol.targets` calls.  The `notify`/`feed` writes the
source interleaves are omitted: they mutate other entities and never flow
back into the returned target map. -/
structure TgtEnv : Type where
  /-- `sorted(set(as1.targets(obj.as1)))`. -/
  rawTargets : List String
  /-- `as1.get_ids(as1.get_object(obj.as1), 'inReplyTo')`. -/
  inReplyTos : List String
  /-- `Protocol.for_id(id)`. -/
  forId : String → Option Proto
  /-- `protocol.is_blocklisted(id)`. -/
  isBlocklisted : Proto → String → Bool
  /-- `protocol.load(id)`. -/
  load : Proto → String → Option LObj
  /-- `protocol.target_for(orig_obj)`, keyed by the orig object's id. -/
  targetFor : Proto → String → Option String
  /-- truthiness of `cls.actor_key(obj)`. -/
  actorKeyExists : Bool
  /-- the active Follower rows for the actor, with their user records. -/
  followers : List FollowerU
  /-- `util.dedupe_urls([target], trailing_slash=False)[0]`. -/
  normalizeUrl : String → String
  /-- `'atproto' in from_user.enabled_protocols`. -/
  enabledAtproto : Bool
  /-- the LIMITED_DOMAINS condition at protocol.py:1359-1363. -/
  limitedCond : Bool
  /-- `ATProto.PDS_URL`. -/
  pdsUrl : String
  /-- `sorted(util.dedupe_urls(..., trailing_slash=False))`. -/
  dedupeUrls : List String → List String
  /-- `util.domain_from_link(url)`. -/
  domainFromLink : String → Option String
  /-- `util.is_web(url)`. -/
  isWebUrl : String → Bool

/-- Python-dict insertion into the target map: overwrite an existing key,
else append. -/
def dictInsert (m : List (Target × Option String)) (k : Target)
    (v : Option String) : List (Target × Option String) :=
  if m.any (fun p => p.1 = k) then
    m.map (fun p => if p.1 = k then (k, v) else p)
  else m ++ [(k, v)]

/-- Python `dict.setdefault`: insert only when the key is absent. -/
def dictSetdefault (m : List (Target × Option String)) (k : Target)
    (v : Option String) : List (Target × Option String) :=
  if m.any (fun p => p.1 = k) then m else m ++ [(k, v)]

/-- The in-reply-to scan (protocol.py:1248-1263): collect the protocol kinds
the reply may be delivered to and the owners of the parent posts. -/
def irtFold (env : TgtEnv) (obj : TObj) :
    List String → List Proto × List String
  | [] => ([], [])
  | irt :: rest =>
    match env.forId irt with
    | none => irtFold env obj rest
    | some proto =>
      match env.load proto irt with
      | none => irtFold env obj rest
      | some lobj =>
        let ks1 := if obj.sourceProtocol ≠ some proto.LABEL then [proto]
                   else lobj.copyProtocols
        let os1 := match lobj.owner with
          | some o => [o]
          | none => []
        let r := irtFold env obj rest
        (ks1 ++ r.1, os1 ++ r.2)

/-- State threaded through the direct-target loop. -/
structure DirectSt : Type where
  tgts : List (Target × Option String)
  isSelfReply : Bool
  /-- the loop's `orig_obj` variable after the last load (its id). -/
  lastOrig : Option String
deriving DecidableEq, Repr

/-- The direct-target loop (protocol.py:1275-1313): skip unresolvable,
blocklisted and unloadable uris, flag self-replies, skip same-protocol
targets (except for the test-only `fake` protocol) and in-reply-to authors,
then record `target_for`. -/
def directLoop (env : TgtEnv) (cls : Proto) (obj : TObj)
    (irtOwners : List String) : List String → DirectSt → DirectSt
  | [], st => st
  | id :: rest, st =>
    let st' :=
      match env.forId id with
      | none => st
      | some protocol =>
        if env.isBlocklisted protocol id then st
        else
          match env.load protocol id with
          | none => { st with lastOrig := none }
          | some lobj =>
            if lobj.hasAs1 = false then { st with lastOrig := some id }
            else
              let st1 : DirectSt :=
                { st with
                  isSelfReply :=
                    st.isSelfReply || decide (obj.asOwner = lobj.owner)
                  lastOrig := some id }
              if protocol = cls ∧ cls.LABEL ≠ "fake" then st1
              else if id ∈ irtOwners then st1
              else
                match env.targetFor protocol id with
                | none => st1
                | some t =>
                  { st1 with
                    tgts := dictInsert st1.tgts ⟨protocol.LABEL, t⟩ (some id) }
    directLoop env cls obj irtOwners rest st'

/-- The follower delivery loop (protocol.py:1375-1394). -/
def followerLoop (env : TgtEnv) (shareVal : Option String) :
    List FollowerU → List (Target × Option String) →
    List (Target × Option String)
  | [], m => m
  | f :: rest, m =>
    match f.tgt with
    | none => followerLoop env shareVal rest m
    | some t =>
      followerLoop env shareVal rest
        (dictInsert m ⟨f.proto.LABEL, env.normalizeUrl t⟩ shareVal)

/-- Insertion into the url-keyed `candidates` dict (later entries win). -/
def candInsert (c : List (String × (Target × Option String))) (k : String)
    (v : Target × Option String) : List (String × (Target × Option String)) :=
  if c.any (fun p => p.1 = k) then
    c.map (fun p => if p.1 = k then (k, v) else p)
  else c ++ [(k, v)]

/-- `candidates = {t.uri: (t, obj) for t, obj in targets.items()}`. -/
def buildCands (m : List (Target × Option String)) :
    List (String × (Target × Option String)) :=
  m.foldl (fun c p => candInsert c p.1.uri (p.1, p.2)) []

/-- `candidates[url]`, as a lookup. -/
def candLookup (c : List (String × (Target × Option String)))
    (k : String) : Option (Target × Option String) :=
  (c.find? (fun p => p.1 = k)).map (fun p => p.2)

/-- The activity's source domains (protocol.py:1404-1408). -/
def srcDomains (env : TgtEnv) (obj : TObj) : List (Option String) :=
  [obj.id, obj.url, obj.asOwner].foldr
    (fun s acc =>
      match s with
      | some u => if env.isWebUrl u then env.domainFromLink u :: acc else acc
      | none => acc) []

/-- The final per-url selection loop (protocol.py:1409-1418). -/
def finalLoop (env : TgtEnv) (sd : List (Option String))
    (c : List (String × (Target × Option String))) :
    List String → List (Target × Option String) →
    List (Target × Option String)
  | [], m => m
  | url :: rest, m =>
    if env.isWebUrl url ∧ env.domainFromLink url ∈ sd then
      finalLoop env sd c rest m
    else
      match candLookup c url with
      | some tv => finalLoop env sd c rest (dictInsert m tv.1 tv.2)
      | none => finalLoop env sd c rest m

/-- The de-dupe / same-domain-drop stage (protocol.py:1399-1418). -/
def finalStage (env : TgtEnv) (obj : TObj)
    (m : List (Target × Option String)) : List (Target × Option String) :=
  let c := buildCands m
  finalLoop env (srcDomains env obj) c
    (env.dedupeUrls (c.map (fun p => p.1))) []

/-- `Protocol.targets` (protocol.py:1226-1420): the delivery planner's map
from `Target` to the original object (its id), if any. -/
def Protocol_targets (env : TgtEnv) (cls : Proto) (obj : TObj) :
    List (Target × Option String) :=
  let irt := irtFold env obj env.inReplyTos
  let isReply := obj.typ = some "comment" ∨ env.inReplyTos ≠ []
  if isReply ∧ irt.1 = [] then []
  else
    let dst := directLoop env cls obj irt.2 env.rawTargets ⟨[], false, none⟩
    if env.actorKeyExists = false then dst.tgts
    else if (obj.typ = some "post" ∨ obj.typ = some "update"
             ∨ obj.typ = some "delete" ∨ obj.typ = some "share")
            ∧ (¬isReply ∨ (dst.isSelfReply = true ∧ irt.1 ≠ [])) then
      let followers1 := env.followers.filter (fun f => !f.isBot)
      let keys2 := if isReply then
          followers1.filter (fun f => f.kind ∈ irt.1)
        else followers1
      let users := keys2.filter (fun f => f.present)
      let m1 :=
        if env.enabledAtproto = true then
          if followers1 = [] ∧ env.limitedCond = true then dst.tgts
          else if (isReply ∨ obj.typ = some "share") ∧ dst.tgts = [] then
            dst.tgts
          else dictSetdefault dst.tgts ⟨"atproto", env.pdsUrl⟩ none
        else dst.tgts
      let shareVal := if obj.typ = some "share" then dst.lastOrig else none
      finalStage env obj (followerLoop env shareVal users m1)
    else finalStage env obj dst.tgts

theorem dictInsert_keyProp {Q : Target → Prop}
    {m : List (Target × Option String)} {k : Target} {v : Option String}
    (hm : ∀ p ∈ m, Q p.1) (hk : Q k) :
    ∀ p ∈ dictInsert m k v, Q p.1 := by
  intro p hp
  unfold dictInsert at hp
  split at hp
  · rcases List.mem_map.mp hp with ⟨q, hq, hqe⟩
    by_cases h : q.1 = k
    · rw [if_pos h] at hqe
      rw [← hqe]
      exact hk
    · rw [if_neg h] at hqe
      rw [← hqe]
      exact hm q hq
  · rcases List.mem_append.mp hp with h | h
    · exact hm p h
    · rw [List.mem_singleton] at h
      rw [h]
      exact hk

theorem dictSetdefault_keyProp {Q : Target → Prop}
    {m : List (Target × Option String)} {k : Target} {v : Option String}
    (hm : ∀ p ∈ m, Q p.1) (hk : Q k) :
    ∀ p ∈ dictSetdefault m k v, Q p.1 := by
  intro p hp
  unfold dictSetdefault at hp
  split at hp
  · exact hm p hp
  · rcases List.mem_append.mp hp with h | h
    · exact hm p h
    · rw [List.mem_singleton] at h
      rw [h]
      exact hk

theorem directLoop_keyProp (env : TgtEnv) (cls : Proto) (obj : TObj)
    (ow : List String) (hfake : cls.LABEL ≠ "fake") :
    ∀ (ids : List String) (st : DirectSt),
      (∀ p ∈ st.tgts, p.1.protocol ≠ cls.LABEL) →
      ∀ p ∈ (directLoop env cls obj ow ids st).tgts,
        p.1.protocol ≠ cls.LABEL := by
  intro ids
  induction ids with
  | nil => exact fun st h => h
  | cons id rest ih =>
    intro st h
    unfold directLoop
    apply ih
    rcases henv : env.forId id with _ | protocol
    · exact h
    · dsimp only
      by_cases hbl : env.isBlocklisted protocol id = true
      · rw [if_pos hbl]
        exact h
      · rw [if_neg hbl]
        rcases hload : env.load protocol id with _ | lobj
        · exact h
        · dsimp only
          by_cases has1 : lobj.hasAs1 = false
          · rw [if_pos has1]
            exact h
          · rw [if_neg has1]
            by_cases hpc : protocol = cls ∧ cls.LABEL ≠ "fake"
            · rw [if_pos hpc]
              exact h
            · rw [if_neg hpc]
              by_cases hmem : id ∈ ow
              · rw [if_pos hmem]
                exact h
              · rw [if_neg hmem]
                rcases htf : env.targetFor protocol id with _ | t
                · exact h
                · dsimp only
                  refine dictInsert_keyProp
                    (Q := fun t => t.protocol ≠ cls.LABEL) h ?_
                  intro he
                  exact hpc ⟨Proto.LABEL_injective he, hfake⟩

theorem followerLoop_keyProp (env : TgtEnv) (cls : Proto)
    (shareVal : Option String) :
    ∀ (fs : List FollowerU) (m : List (Target × Option String)),
      (∀ p ∈ m, p.1.protocol ≠ cls.LABEL) →
      (∀ f ∈ fs, f.proto ≠ cls) →
      ∀ p ∈ followerLoop env shareVal fs m, p.1.protocol ≠ cls.LABEL := by
  intro fs
  induction fs with
  | nil => exact fun m hm _ => hm
  | cons f rest ih =>
    intro m hm hf
    unfold followerLoop
    rcases htf : f.tgt with _ | t
    · exact ih m hm (fun g hg => hf g (List.mem_cons_of_mem f hg))
    · refine ih _ ?_ (fun g hg => hf g (List.mem_cons_of_mem f hg))
      refine dictInsert_keyProp
        (Q := fun t => t.protocol ≠ cls.LABEL) hm ?_
      intro he
      exact hf f (List.mem_cons_self f rest) (Proto.LABEL_injective he)

theorem candInsert_keyProp {Q : Target → Prop}
    {c : List (String × (Target × Option String))} {k : String}
    {v : Target × Option String}
    (hc : ∀ e ∈ c, Q e.2.1) (hv : Q v.1) :
    ∀ e ∈ candInsert c k v, Q e.2.1 := by
  intro e he
  unfold candInsert at he
  split at he
  · rcases List.mem_map.mp he with ⟨q, hq, hqe⟩
    by_cases h : q.1 = k
    · rw [if_pos h] at hqe
      rw [← hqe]
      exact hv
    · rw [if_neg h] at hqe
      rw [← hqe]
      exact hc q hq
  · rcases List.mem_append.mp he with h | h
    · exact hc e h
    · rw [List.mem_singleton] at h
      rw [h]
      exact hv

theorem buildCands_keyProp {Q : Target → Prop} :
    ∀ (m : List (Target × Option String))
      (c : List (String × (Target × Option String))),
      (∀ e ∈ c, Q e.2.1) → (∀ p ∈ m, Q p.1) →
      ∀ e ∈ m.foldl (fun c p => candInsert c p.1.uri (p.1, p.2)) c,
        Q e.2.1 := by
  intro m
  induction m with
  | nil => exact fun c hc _ => hc
  | cons p rest ih =>
    intro c hc hm
    exact ih _ (candInsert_keyProp hc (hm p (List.mem_cons_self p rest)))
      (fun q hq => hm q (List.mem_cons_of_mem p hq))

theorem candLookup_keyProp {Q : Target → Prop}
    {c : List (String × (Target × Option String))} {k : String}
    {tv : Target × Option String}
    (hc : ∀ e ∈ c, Q e.2.1) (h : candLookup c k = some tv) : Q tv.1 := by
  unfold candLookup at h
  rcases hf : c.find? (fun p => p.1 = k) with _ | e
  · rw [hf] at h
    cases h
  · rw [hf] at h
    simp only [Option.map_some'] at h
    cases h
    exact hc e (List.mem_of_find?_eq_some hf)

theorem finalLoop_keyProp {Q : Target → Prop} (env : TgtEnv)
    (sd : List (Option String))
    (c : List (String × (Target × Option String)))
    (hc : ∀ e ∈ c, Q e.2.1) :
    ∀ (urls : List String) (m : List (Target × Option String)),
      (∀ p ∈ m, Q p.1) →
      ∀ p ∈ finalLoop env sd c urls m, Q p.1 := by
  intro urls
  induction urls with
  | nil => exact fun m hm => hm
  | cons url rest ih =>
    intro m hm
    unfold finalLoop
    split
    · exact ih m hm
    · rcases hlk : candLookup c url with _ | tv
      · exact ih m hm
      · exact ih _ (dictInsert_keyProp hm (candLookup_keyProp hc hlk))

theorem finalStage_keyProp {Q : Target → Prop} (env : TgtEnv) (obj : TObj)
    (m : List (Target × Option String)) (hm : ∀ p ∈ m, Q p.1) :
    ∀ p ∈ finalStage env obj m, Q p.1 := by
  unfold finalStage
  have hc := buildCands_keyProp m [] (fun e he => absurd he (List.not_mem_nil e)) hm
  exact finalLoop_keyProp env _ _ hc _ [] (fun p hp => absurd hp (List.not_mem_nil p))

/-- C5 (counterexample).  For the test-only `fake` protocol the
same-protocol guard is explicitly disabled (protocol.py:1295:
`protocol == cls and cls.LABEL != 'fake'`), so a fake-protocol activity gets
a direct fan-out target on its own protocol. -/
theorem C5_claim_false_on_fake :
    let env : TgtEnv :=
      { rawTargets := ["fake:other"]
        inReplyTos := []
        forId := fun s => if s = "fake:other" then some .fake else none
        isBlocklisted := fun _ _ => false
        load := fun _ _ => some ⟨some "fake:other", true, []⟩
        targetFor := fun _ _ => some "fake:other:target"
        actorKeyExists := true
        followers := []
        normalizeUrl := fun s => s
        enabledAtproto := false
        limitedCond := false
        pdsUrl := "https://atproto.brid.gy"
        dedupeUrls := fun l => l
        domainFromLink := fun _ => none
        isWebUrl := fun _ => false }
    let obj : TObj :=
      ⟨some "fake", some "post", some "fake:alice", some "fake:post", none⟩
    obj.sourceProtocol = some (Proto.LABEL .fake)
    ∧ (Target.mk (Proto.LABEL .fake) "fake:other:target", some "fake:other") ∈
        Protocol_targets env .fake obj := by
  exact ⟨rfl, by decide⟩

/-- C5 (amended).  For an activity whose source protocol `P` is not the
test-only `fake` protocol, the fan-out map contains no Target with
`protocol = P`, provided no active follower of the actor is itself on `P`
and, when `P` is atproto, the sender has not enabled atproto (the ATProto
PDS shortcut at protocol.py:1358-1373 adds an `atproto` target for senders
with atproto enabled, and the follower loop labels targets with the
follower's own protocol without a same-protocol guard). -/
theorem C5_no_same_protocol_targets (env : TgtEnv) (cls : Proto) (obj : TObj)
    (hfake : cls.LABEL ≠ "fake")
    (hfol : ∀ f ∈ env.followers, f.proto ≠ cls)
    (hatp : cls = .atproto → env.enabledAtproto = false) :
    ∀ p ∈ Protocol_targets env cls obj, p.1.protocol ≠ cls.LABEL := by
  intro p hp
  simp only [Protocol_targets] at hp
  split at hp
  · exact absurd hp (List.not_mem_nil p)
  · have hdst := directLoop_keyProp env cls obj
      (irtFold env obj env.inReplyTos).2 hfake env.rawTargets
      ⟨[], false, none⟩ (fun q hq => absurd hq (List.not_mem_nil q))
    split at hp
    · exact hdst p hp
    · split at hp
      · refine finalStage_keyProp
          (Q := fun t => t.protocol ≠ cls.LABEL) env obj _ ?_ p hp
        refine followerLoop_keyProp env cls _ _ _ ?_ ?_
        · -- the map after the optional ATProto setdefault
          split
          case isTrue henb =>
            split
            · exact hdst
            · split
              · exact hdst
              · refine dictSetdefault_keyProp
                  (Q := fun t => t.protocol ≠ cls.LABEL) hdst ?_
                intro he
                rcases cls with _ | _ | _ | _ | _ <;>
                  simp_all [Proto.LABEL]
          case isFalse henb => exact hdst
        · -- every user in the loop is one of the env's followers
          intro f hf
          refine hfol f ?_
          have h1 := (List.mem_filter.mp hf).1
          split at h1
          · exact (List.mem_filter.mp (List.mem_filter.mp h1).1).1
          · exact (List.mem_filter.mp h1).1
      · exact finalStage_keyProp
          (Q := fun t => t.protocol ≠ cls.LABEL) env obj _ hdst p hp

/-- C5 (witness for the amended theorem): a web activity with one
ActivityPub follower and one direct ActivityPub target — every resulting
Target is off-protocol. -/
theorem C5_no_same_protocol_targets_witness :
    let env : TgtEnv :=
      { rawTargets := ["https://inst/bob"]
        inReplyTos := []
        forId := fun s => if s = "https://inst/bob" then some .activitypub
                          else none
        isBlocklisted := fun _ _ => false
        load := fun _ _ => some ⟨some "https://inst/bob", true, []⟩
        targetFor := fun _ _ => some "https://inst/bob/inbox"
        actorKeyExists := true
        followers := [⟨false, .activitypub, true, .activitypub,
                       some "https://inst/shared-inbox"⟩]
        normalizeUrl := fun s => s
        enabledAtproto := false
        limitedCond := false
        pdsUrl := "https://atproto.brid.gy"
        dedupeUrls := fun l => l
        domainFromLink := fun _ => none
        isWebUrl := fun _ => false }
    let obj : TObj :=
      ⟨some "web", some "post", some "alice.com", some "https://alice.com/post",
       none⟩
    ∀ p ∈ Protocol_targets env .web obj, p.1.protocol ≠ Proto.LABEL .web :=
  C5_no_same_protocol_targets _ .web _
    (by decide) (by decide) (fun h => nomatch h)

end BridgyFed
